import Mathlib

/-!
Verification development for `app.py`, a Streamlit application that polls
the browser position, queries the MediaWiki geosearch API for nearby
Wikipedia pages, and annotates the results with cached OpenAI summaries.

Pure helpers of the source are translated to Lean functions.  The
rerun-driven script is modelled as a step function over the
`st.session_state` record, one step per script rerun, with the outcomes of
the two network calls and of the geolocation component supplied as inputs.
Python exceptions escaping a function are modelled with `Except.error`.
-/

/-- JSON values as decoded by `response.json()`.  Numbers are modelled as
integers; no verified property depends on fractional values. -/
inductive Json where
  | null : Json
  | bool (b : Bool) : Json
  | num (n : Int) : Json
  | str (s : String) : Json
  | arr (xs : List Json) : Json
  | obj (fields : List (String × Json)) : Json

mutual

/-- Structural equality of JSON values. -/
def Json.beq : Json → Json → Bool
  | Json.null, Json.null => true
  | Json.bool a, Json.bool b => a == b
  | Json.num a, Json.num b => a == b
  | Json.str a, Json.str b => a == b
  | Json.arr xs, Json.arr ys => Json.beqList xs ys
  | Json.obj fs, Json.obj gs => Json.beqFields fs gs
  | _, _ => false

/-- Elementwise equality of JSON lists. -/
def Json.beqList : List Json → List Json → Bool
  | [], [] => true
  | x :: xs, y :: ys => Json.beq x y && Json.beqList xs ys
  | _, _ => false

/-- Entrywise equality of JSON object fields. -/
def Json.beqFields : List (String × Json) → List (String × Json) → Bool
  | [], [] => true
  | (k, v) :: fs, (l, w) :: gs => k == l && Json.beq v w && Json.beqFields fs gs
  | _, _ => false

end

instance : BEq Json := ⟨Json.beq⟩

/-- Python type name of a JSON value, used in exception messages. -/
def pyTypeName : Json → String
  | Json.null => "NoneType"
  | Json.bool _ => "bool"
  | Json.num _ => "int"
  | Json.str _ => "str"
  | Json.arr _ => "list"
  | Json.obj _ => "dict"

/-- Python membership test `key in value` for a string key: key membership
for dicts, element membership for lists, substring test for strings; a
`TypeError` for non-iterable values. -/
def pyContains (key : String) : Json → Except String Bool
  | Json.obj fields => Except.ok (fields.any (fun p => p.1 == key))
  | Json.arr xs => Except.ok (xs.contains (Json.str key))
  | Json.str s => Except.ok ((s.splitOn key).length != 1)
  | j => Except.error ("TypeError: argument of type \x27" ++ pyTypeName j ++ "\x27 is not iterable")

/-- Python subscript `value[key]` for a string key. -/
def pyIndex (j : Json) (key : String) : Except String Json :=
  match j with
  | Json.obj fields =>
      match fields.lookup key with
      | some v => Except.ok v
      | none => Except.error ("KeyError: \x27" ++ key ++ "\x27")
  | Json.arr _ => Except.error "TypeError: list indices must be integers or slices, not str"
  | Json.str _ => Except.error "TypeError: string indices must be integers"
  | _ => Except.error ("TypeError: \x27" ++ pyTypeName j ++ "\x27 object is not subscriptable")

/-- Python `value.get(key, dflt)`: only dicts have a `get` method. -/
def pyDictGet (j : Json) (key : String) (dflt : Json) : Except String Json :=
  match j with
  | Json.obj fields =>
      match fields.lookup key with
      | some v => Except.ok v
      | none => Except.ok dflt
  | _ => Except.error ("AttributeError: \x27" ++ pyTypeName j ++ "\x27 object has no attribute \x27get\x27")

/-- Python truthiness of a JSON value. -/
def pyTruthy : Json → Bool
  | Json.null => false
  | Json.bool b => b
  | Json.num n => n != 0
  | Json.str s => s != ""
  | Json.arr xs => !xs.isEmpty
  | Json.obj fields => !fields.isEmpty

/-- Python `len(value)`; a `TypeError` for sizeless values. -/
def pyLen : Json → Except String Nat
  | Json.str s => Except.ok s.length
  | Json.arr xs => Except.ok xs.length
  | Json.obj fields => Except.ok fields.length
  | j => Except.error ("TypeError: object of type \x27" ++ pyTypeName j ++ "\x27 has no len()")

mutual

/-- Python `repr`, as used by `str` on container elements. -/
def pyRepr : Json → String
  | Json.null => "None"
  | Json.bool true => "True"
  | Json.bool false => "False"
  | Json.num n => toString n
  | Json.str s => "\x27" ++ s ++ "\x27"
  | Json.arr xs => "[" ++ pyReprList xs ++ "]"
  | Json.obj fields => "\x7b" ++ pyReprFields fields ++ "\x7d"

/-- Comma-separated `repr` of list elements. -/
def pyReprList : List Json → String
  | [] => ""
  | [x] => pyRepr x
  | x :: y :: xs => pyRepr x ++ ", " ++ pyReprList (y :: xs)

/-- Comma-separated `repr` of dict entries. -/
def pyReprFields : List (String × Json) → String
  | [] => ""
  | [(k, v)] => "\x27" ++ k ++ "\x27: " ++ pyRepr v
  | (k, v) :: p :: ps => "\x27" ++ k ++ "\x27: " ++ pyRepr v ++ ", " ++ pyReprFields (p :: ps)

end

/-- Python `str`, as interpolated by an f-string. -/
def pyStr : Json → String
  | Json.str s => s
  | j => pyRepr j

/-- Configuration constants of `app.py`. -/
def WIKIPEDIA_API_URL : String := "https://en.wikipedia.org/w/api.php"

/-- Search radius passed by the main loop to the geosearch client. -/
def SEARCH_RADIUS_METERS : Nat := 1500

/-- Fixed inter-cycle wait, in seconds. -/
def REFRESH_INTERVAL_SECONDS : Nat := 30

/-- Outcome of the HTTP exchange inside `get_nearby_wikipedia_pages`, as
seen by its `try` block: the request may time out, fail with a transport or
HTTP-status error (`raise_for_status` raises a `RequestException`
subclass), return a body that is not decodable JSON, or return a decoded
JSON body. -/
inductive GeoResponse where
  | timeout : GeoResponse
  | requestError (e : String) : GeoResponse
  | decodeFailure : GeoResponse
  | body (data : Json) : GeoResponse

/-- Query parameters built at the top of `get_nearby_wikipedia_pages`;
`gscoord` keeps the coordinate pair that the source serialises as
"lat|lon". -/
structure GeosearchParams where
  action : String
  listParam : String
  gsradius : Nat
  gscoord : ℚ × ℚ
  gslimit : Nat
  format : String
  formatversion : Nat

/-- The two non-raising outcomes of `get_nearby_wikipedia_pages`: the
geosearch list, or the `None` return after `st.error` has displayed a
human-readable cause. -/
inductive SearchOutcome where
  | results (pages : Json) : SearchOutcome
  | searchError (cause : String) : SearchOutcome

/-- Lines 41-44 of `app.py`: inspect the decoded body for an embedded error
payload, otherwise extract `data.get("query", \x7b\x7d).get("geosearch", [])`.
An `Except.error` is a Python exception escaping the function uncaught:
`AttributeError`, `TypeError` and `KeyError` are not in its `except`
clauses, which name only `Timeout`, `RequestException` and
`JSONDecodeError`. -/
def parseGeosearchBody (data : Json) : Except String SearchOutcome :=
  match pyContains "error" data with
  | Except.error e => Except.error e
  | Except.ok true =>
      match pyIndex data "error" with
      | Except.error e => Except.error e
      | Except.ok errVal =>
          match pyDictGet errVal "info" (Json.str "Unknown error") with
          | Except.error e => Except.error e
          | Except.ok info =>
              Except.ok (SearchOutcome.searchError ("Wikipedia API Error: " ++ pyStr info))
  | Except.ok false =>
      match pyDictGet data "query" (Json.obj []) with
      | Except.error e => Except.error e
      | Except.ok q =>
          match pyDictGet q "geosearch" (Json.arr []) with
          | Except.error e => Except.error e
          | Except.ok gs => Except.ok (SearchOutcome.results gs)

/-- Outcome of one call to `get_nearby_wikipedia_pages` given the HTTP
exchange's result: the `except` clauses turn timeouts, transport errors and
undecodable bodies into `st.error` plus a `None` return. -/
def clientOutcome : GeoResponse → Except String SearchOutcome
  | GeoResponse.timeout =>
      Except.ok (SearchOutcome.searchError "Wikipedia API request timed out.")
  | GeoResponse.requestError e =>
      Except.ok (SearchOutcome.searchError ("Network or API request failed: " ++ e))
  | GeoResponse.decodeFailure =>
      Except.ok (SearchOutcome.searchError "Failed to decode the response from Wikipedia API.")
  | GeoResponse.body data => parseGeosearchBody data

/-- The function `get_nearby_wikipedia_pages` (lines 23-53): builds the request
parameters (source defaults: `radius_meters=1000`, `limit=5`) and resolves
the exchange.  Returns the parameters it sends together with the
list-or-`None` outcome; an `Except.error` models an uncaught exception. -/
def get_nearby_wikipedia_pages (latitude longitude : ℚ) (radius_meters limit : Nat)
    (resp : GeoResponse) : GeosearchParams × Except String SearchOutcome :=
  ({ action := "query", listParam := "geosearch", gsradius := radius_meters,
     gscoord := (latitude, longitude), gslimit := limit,
     format := "json", formatversion := 2 },
   clientOutcome resp)

/-- Outcome of the OpenAI chat-completions call for one title. -/
inductive OpenAiOutcome where
  | success (content : String) : OpenAiOutcome
  | apiTimeout : OpenAiOutcome
  | failure (exnName : String) : OpenAiOutcome

/-- The function `get_openai_summary` (lines 57-86), under the
`st.cache_data` decorator: returns the fixed placeholder string when the
API key is missing, the stripped completion text on success, and `None`
after a caught timeout or other exception.  The boolean records whether a
network call was made. -/
def get_openai_summary (openai_enabled : Bool) (api : String → OpenAiOutcome)
    (page_title : String) : Option String × Bool :=
  if openai_enabled = false then
    (some "OpenAI summarization disabled (API key missing).", false)
  else
    match api page_title with
    | OpenAiOutcome.success content => (some content.trim, true)
    | OpenAiOutcome.apiTimeout => (none, true)
    | OpenAiOutcome.failure _ => (none, true)

/-- One entry of the `st.cache_data` store for `get_openai_summary`. -/
structure CacheEntry where
  title : String
  value : Option String
  storedAt : Nat

/-- The `st.cache_data` store: memoized results keyed by the function
argument, with their storage time in seconds. -/
abbrev SummaryCache := List CacheEntry

/-- Modelled from the spec: the semantics of the `@st.cache_data(ttl=3600)`
decorator on `get_openai_summary` (line 56) live in the Streamlit library,
not in this repository.  Per its contract, a call is memoized by argument:
if a stored value for `page_title` is younger than `ttl` seconds it is
returned without running the function; otherwise the function runs and its
return value (including `None`) is stored. -/
def cache_data_call (ttl : Nat) (cache : SummaryCache) (now : Nat)
    (openai_enabled : Bool) (api : String → OpenAiOutcome) (page_title : String) :
    Option String × SummaryCache × Bool :=
  match cache.find? (fun e => e.title == page_title && decide (now - e.storedAt < ttl)) with
  | some e => (e.value, cache, false)
  | none =>
      match get_openai_summary openai_enabled api page_title with
      | (res, attempted) =>
          (res, { title := page_title, value := res, storedAt := now } :: cache, attempted)

/-- The per-generation summary map `st.session_state.summaries`, keyed by
page id. -/
abbrev Summaries := List (Nat × Option String)

/-- Result of rendering one item's summary column. -/
structure DisplayOut where
  summaries : Summaries
  cache : SummaryCache
  attempted : Bool

/-- The summary column for one displayed result (lines 172-189): reuse the
session-stored summary when the page id is present in
`st.session_state.summaries`, otherwise, when OpenAI is enabled, call the
cached fetcher and store its result (even when `None`). -/
def displaySummary (openai_enabled : Bool) (cache : SummaryCache) (now : Nat)
    (api : String → OpenAiOutcome) (summaries : Summaries)
    (page_id : Nat) (title : String) : DisplayOut :=
  if (summaries.lookup page_id).isSome then
    { summaries := summaries, cache := cache, attempted := false }
  else if openai_enabled then
    match cache_data_call 3600 cache now openai_enabled api title with
    | (res, cache2, attempted) =>
        { summaries := (page_id, res) :: summaries, cache := cache2, attempted := attempted }
  else
    { summaries := summaries, cache := cache, attempted := false }

/-- One browser position fix as delivered by `streamlit_geolocation`. -/
structure PositionFix where
  latitude : ℚ
  longitude : ℚ
  accuracy : Option ℚ
  timestamp : Int
deriving DecidableEq

/-- Value of `streamlit_geolocation(key="geoloc")` on one rerun, per the
position-source contract: a usable fix (the dict carries latitude and
longitude), an error payload `\x7berror: \x7bcode, message\x7d\x7d`, or no data
yet. -/
inductive LocationInput where
  | fix (f : PositionFix) : LocationInput
  | fixError (code : Int) (message : String) : LocationInput
  | pending : LocationInput

/-- The `st.session_state` fields used by `app.py` (lines 90-101 and
`status_updated`, first written in the main loop). -/
structure AppState where
  running : Bool
  last_location : Option PositionFix
  last_results : Json
  status_message : String
  error_message : Option String
  summaries : Summaries
  status_updated : Bool

/-- Left pad with zeros to four digits, for `fmt4`. -/
def pad4 (n : Nat) : String :=
  let s := toString n
  String.mk (List.replicate (4 - s.length) '0') ++ s

/-- Decimal rendering of a rational to four places, standing in for the
f-string format `:.4f` applied to the fix coordinates; no verified
property depends on its exact rounding. -/
def fmt4 (q : ℚ) : String :=
  let m : Int := round (q * 10000)
  (if m < 0 then "-" else "") ++ toString (m.natAbs / 10000) ++ "." ++ pad4 (m.natAbs % 10000)

/-- Status text of line 207. -/
def acquiredMsg (f : PositionFix) : String :=
  "✅ Location acquired (" ++ fmt4 f.latitude ++ ", " ++ fmt4 f.longitude ++
    "). Searching Wikipedia..."

/-- Error text of line 213. -/
def geoErrorMsg (code : Int) (message : String) : String :=
  "🚫 Geolocation Error: " ++ message ++ " (Code: " ++ toString code ++ "). Tracking stopped."

/-- Status text of line 231. -/
def noPagesMsg : String :=
  "⚪ No pages found within " ++ toString SEARCH_RADIUS_METERS ++ "m. Waiting " ++
    toString REFRESH_INTERVAL_SECONDS ++ "s..."

/-- Status text of line 234. -/
def foundMsg (n : Nat) : String :=
  "✅ Found " ++ toString n ++ " page(s). Waiting " ++ toString REFRESH_INTERVAL_SECONDS ++ "s..."

/-- Status text of line 236. -/
def searchErrMsg : String :=
  "⚠️ Error searching Wikipedia. Waiting " ++ toString REFRESH_INTERVAL_SECONDS ++ "s..."

/-- The session state created by lines 90-101. -/
def initialState : AppState :=
  { running := false, last_location := none, last_results := Json.arr [],
    status_message := "Press \x27Start Tracking\x27 to begin.",
    error_message := none, summaries := [], status_updated := false }

/-- The Start Tracking button handler (lines 123-130). -/
def startTracking (s : AppState) : AppState :=
  { s with running := true,
           status_message := "Initiating location tracking...",
           error_message := none,
           last_results := Json.arr [],
           last_location := none,
           summaries := [] }

/-- The Stop Tracking button handler (lines 133-137). -/
def stopTracking (s : AppState) : AppState :=
  { s with running := false,
           status_message := "Tracking stopped by user.",
           error_message := none }

/-- Disabled-condition of the Start Tracking button (line 123). -/
def start_button_disabled (s : AppState) : Bool :=
  s.running

/-- The countdown of lines 240-244: each iteration writes the countdown
text to a placeholder and performs `time.sleep(1)`.  The body reads no
session state, so the stop-request history `stopRequest` (true at tick `i`
when the user has pressed Stop by the time `i` sleeps have elapsed) is
never consulted.  Returns the number of one-second sleeps performed. -/
def countdownLoop (stopRequest : Nat → Bool) : Nat → Nat
  | 0 => 0
  | n + 1 => countdownLoop stopRequest n + 1

/-- Observable effect of one rerun of the main execution loop: the session
state it leaves behind, whether a geosearch request was issued, how many
one-second sleeps ran, whether `st.experimental_rerun` was called, and the
message of an uncaught exception when the run crashed. -/
structure StepResult where
  state : AppState
  searched : Bool
  sleeps : Nat
  rerun : Bool
  crashed : Option String

/-- End of the search branch (lines 239-247): run the countdown, reset
`status_updated` and rerun. -/
def finishWait (s : AppState) (stopRequest : Nat → Bool) : StepResult :=
  { state := { s with status_updated := false },
    searched := true,
    sleeps := countdownLoop stopRequest REFRESH_INTERVAL_SECONDS,
    rerun := true,
    crashed := none }

/-- Lines 220-247: the search-and-wait branch, entered with the current
fix and `status_updated` set.  Calls the geosearch client, clears the
summary map, stores the new result set, and waits. -/
def doSearch (s : AppState) (f : PositionFix) (resp : GeoResponse)
    (stopRequest : Nat → Bool) : StepResult :=
  match (get_nearby_wikipedia_pages f.latitude f.longitude SEARCH_RADIUS_METERS 5 resp).2 with
  | Except.error e =>
      { state := s, searched := true, sleeps := 0, rerun := false, crashed := some e }
  | Except.ok outcome =>
      let s1 := { s with summaries := [] }
      match outcome with
      | SearchOutcome.results pages =>
          let s2 := { s1 with last_results := pages }
          if pyTruthy pages = false then
            finishWait { s2 with status_message := noPagesMsg } stopRequest
          else
            match pyLen pages with
            | Except.error e =>
                { state := s2, searched := true, sleeps := 0, rerun := false, crashed := some e }
            | Except.ok n =>
                finishWait { s2 with status_message := foundMsg n } stopRequest
      | SearchOutcome.searchError _ =>
          finishWait { s1 with status_message := searchErrMsg,
                               last_results := Json.arr [] } stopRequest

/-- One rerun of the main execution loop (lines 198-251), driven by the
geolocation component's value, the geosearch exchange's outcome, and the
stop-request history.  When `running` is false the whole block is
skipped. -/
def mainLoopStep (s : AppState) (loc : LocationInput) (resp : GeoResponse)
    (stopRequest : Nat → Bool) : StepResult :=
  if s.running = false then
    { state := s, searched := false, sleeps := 0, rerun := false, crashed := none }
  else
    match loc with
    | LocationInput.fix f =>
        let s1 := { s with last_location := some f,
                           error_message := none,
                           status_message := acquiredMsg f }
        if s1.status_updated = false then
          { state := { s1 with status_updated := true },
            searched := false, sleeps := 0, rerun := true, crashed := none }
        else
          doSearch s1 f resp stopRequest
    | LocationInput.fixError code msg =>
        { state := { s with error_message := some (geoErrorMsg code msg),
                            status_message := "Tracking stopped due to location error.",
                            running := false,
                            status_updated := false },
          searched := false, sleeps := 0, rerun := true, crashed := none }
    | LocationInput.pending =>
        { state := { s with status_message := "⏳ Waiting for browser location permission/data..." },
          searched := false, sleeps := 0, rerun := false, crashed := none }

/-- A geosearch exchange after which the search branch completes without an
uncaught exception: the client returns, and a returned result list is an
actual JSON list (so `len` succeeds). -/
def respBenign (resp : GeoResponse) : Bool :=
  match clientOutcome resp with
  | Except.ok (SearchOutcome.results (Json.arr _)) => true
  | Except.ok (SearchOutcome.searchError _) => true
  | _ => false

/-- A geosearch exchange from which the client returns instead of
raising. -/
def clientReturns (resp : GeoResponse) : Bool :=
  match clientOutcome resp with
  | Except.ok _ => true
  | Except.error _ => false

/-- A geosearch exchange whose client outcome is the `None`-with-message
degradation. -/
def clientFailed (resp : GeoResponse) : Bool :=
  match clientOutcome resp with
  | Except.ok (SearchOutcome.searchError _) => true
  | _ => false

/-- Iterate reruns of the main loop with the same inputs, counting the
geosearch calls issued. -/
def repeatSteps (loc : LocationInput) (resp : GeoResponse) (stopRequest : Nat → Bool) :
    AppState → Nat → AppState × Nat
  | s, 0 => (s, 0)
  | s, n + 1 =>
      let r := mainLoopStep s loc resp stopRequest
      let p := repeatSteps loc resp stopRequest r.state n
      (p.1, (if r.searched then 1 else 0) + p.2)

/-- A geosearch exchange whose decoded body, if any, has the shape the
parsing code can handle: a JSON object whose `error` value (when present)
is an object, and otherwise whose `query` value (when present) is an
object. -/
def responseWellShaped (resp : GeoResponse) : Bool :=
  match resp with
  | GeoResponse.body data =>
      match data with
      | Json.obj fields =>
          (match fields.lookup "error" with
           | some (Json.obj _) => true
           | some _ => false
           | none =>
               match fields.lookup "query" with
               | some (Json.obj _) => true
               | some _ => false
               | none => true)
      | _ => false
  | _ => true

/-- Modelled from the spec: the provider-documented maximum geosearch
radius (MediaWiki caps `gsradius` at 10000 m); no such constant appears in
the source. -/
def WIKIPEDIA_MAX_GSRADIUS : Nat := 10000

theorem countdownLoop_eq (stopRequest : Nat → Bool) (n : Nat) :
    countdownLoop stopRequest n = n := by
  induction n with
  | zero => rfl
  | succ k ih => simp [countdownLoop, ih]

theorem get_openai_summary_enabled_attempts (api : String → OpenAiOutcome)
    (page_title : String) : (get_openai_summary true api page_title).2 = true := by
  cases h : api page_title <;> simp [get_openai_summary, h]

theorem lookup_any_eq (key : String) (fields : List (String × Json)) :
    fields.any (fun p => p.1 == key) = (fields.lookup key).isSome := by
  induction fields with
  | nil => rfl
  | cons p fs ih =>
      cases p with
      | mk k v =>
          by_cases hk : k = key
          · subst hk; simp [List.lookup]
          · have h1 : (k == key) = false := by simp [hk]
            have h2 : (key == k) = false := by simp [Ne.symm hk]
            simp [List.lookup, List.any, h1, h2, ih]

theorem mainLoop_ack (s : AppState) (f : PositionFix) (resp : GeoResponse)
    (stopRequest : Nat → Bool) (hrun : s.running = true)
    (hflag : s.status_updated = false) :
    mainLoopStep s (LocationInput.fix f) resp stopRequest =
      { state := { s with last_location := some f, error_message := none,
                          status_message := acquiredMsg f, status_updated := true },
        searched := false, sleeps := 0, rerun := true, crashed := none } := by
  simp [mainLoopStep, hrun, hflag]

theorem mainLoop_search_props (s : AppState) (f : PositionFix) (resp : GeoResponse)
    (stopRequest : Nat → Bool) (hrun : s.running = true)
    (hflag : s.status_updated = true) (hresp : respBenign resp = true) :
    (mainLoopStep s (LocationInput.fix f) resp stopRequest).searched = true ∧
    (mainLoopStep s (LocationInput.fix f) resp stopRequest).state.status_updated = false ∧
    (mainLoopStep s (LocationInput.fix f) resp stopRequest).state.running = true ∧
    (mainLoopStep s (LocationInput.fix f) resp stopRequest).rerun = true ∧
    (mainLoopStep s (LocationInput.fix f) resp stopRequest).crashed = none := by
  unfold respBenign at hresp
  cases hc : clientOutcome resp with
  | error e => rw [hc] at hresp; simp at hresp
  | ok outcome =>
      rw [hc] at hresp
      cases outcome with
      | searchError c =>
          simp [mainLoopStep, hrun, hflag, doSearch, get_nearby_wikipedia_pages, hc, finishWait]
      | results pages =>
          cases pages with
          | arr xs =>
              cases xs with
              | nil =>
                  simp [mainLoopStep, hrun, hflag, doSearch, get_nearby_wikipedia_pages, hc,
                        finishWait, pyTruthy]
              | cons x xs =>
                  simp [mainLoopStep, hrun, hflag, doSearch, get_nearby_wikipedia_pages, hc,
                        finishWait, pyTruthy, pyLen]
          | null => simp at hresp
          | bool b => simp at hresp
          | num n => simp at hresp
          | str t => simp at hresp
          | obj fs => simp at hresp

theorem repeatSteps_two_cycles (loc : LocationInput) (resp : GeoResponse)
    (stopRequest : Nat → Bool) (f : PositionFix) (hloc : loc = LocationInput.fix f)
    (hresp : respBenign resp = true) (n : Nat) :
    ∀ s : AppState, s.running = true → s.status_updated = false →
      (repeatSteps loc resp stopRequest s (2 * n)).2 = n ∧
      (repeatSteps loc resp stopRequest s (2 * n)).1.running = true ∧
      (repeatSteps loc resp stopRequest s (2 * n)).1.status_updated = false := by
  subst hloc
  induction n with
  | zero =>
      intro s hrun hflag
      refine ⟨rfl, hrun, hflag⟩
  | succ k ih =>
      intro s hrun hflag
      have h2 : 2 * (k + 1) = (2 * k) + 1 + 1 := by ring
      rw [h2]
      have hack := mainLoop_ack s f resp stopRequest hrun hflag
      have hs1run :
          (mainLoopStep s (LocationInput.fix f) resp stopRequest).state.running = true := by
        rw [hack]; exact hrun
      have hs1flag :
          (mainLoopStep s (LocationInput.fix f) resp stopRequest).state.status_updated = true := by
        rw [hack]
      have hsearch := mainLoop_search_props
        (mainLoopStep s (LocationInput.fix f) resp stopRequest).state f resp stopRequest
        hs1run hs1flag hresp
      have hih := ih
        (mainLoopStep (mainLoopStep s (LocationInput.fix f) resp stopRequest).state
          (LocationInput.fix f) resp stopRequest).state
        hsearch.2.2.1 hsearch.2.1
      have hs1 : (mainLoopStep s (LocationInput.fix f) resp stopRequest).searched = false := by
        rw [hack]
      refine ⟨?_, ?_, ?_⟩
      · simp [repeatSteps, hs1, hsearch.1, hih.1]
        omega
      · simp [repeatSteps, hs1, hsearch.1, hih.2.1]
      · simp [repeatSteps, hs1, hsearch.1, hih.2.2]

/-- C1: while tracking runs and the geolocation component re-delivers the
same fix on every rerun, the first inspection of a cycle only acknowledges
the fix (`status_updated` goes from false to true, no geosearch call), the
second inspection performs the cycle's single geosearch call and resets the
flag while scheduling the rerun that re-enters the awaiting-fix phase, and
over `2 * n` consecutive inspections exactly `n` geosearch calls are
issued — a delivered-but-already-consumed fix never triggers a second
search within its cycle. -/
theorem fix_consumed_once_per_cycle (s : AppState) (f : PositionFix)
    (resp : GeoResponse) (stopRequest : Nat → Bool) (n : Nat)
    (hrun : s.running = true) (hflag : s.status_updated = false)
    (hresp : respBenign resp = true) :
    (mainLoopStep s (LocationInput.fix f) resp stopRequest).searched = false ∧
    (mainLoopStep s (LocationInput.fix f) resp stopRequest).state.status_updated = true ∧
    (mainLoopStep (mainLoopStep s (LocationInput.fix f) resp stopRequest).state
        (LocationInput.fix f) resp stopRequest).searched = true ∧
    (mainLoopStep (mainLoopStep s (LocationInput.fix f) resp stopRequest).state
        (LocationInput.fix f) resp stopRequest).state.status_updated = false ∧
    (mainLoopStep (mainLoopStep s (LocationInput.fix f) resp stopRequest).state
        (LocationInput.fix f) resp stopRequest).state.running = true ∧
    (mainLoopStep (mainLoopStep s (LocationInput.fix f) resp stopRequest).state
        (LocationInput.fix f) resp stopRequest).rerun = true ∧
    (repeatSteps (LocationInput.fix f) resp stopRequest s (2 * n)).2 = n := by
  have hack := mainLoop_ack s f resp stopRequest hrun hflag
  have hsearch := mainLoop_search_props
    (mainLoopStep s (LocationInput.fix f) resp stopRequest).state f resp stopRequest
    (by rw [hack]; exact hrun) (by rw [hack]) hresp
  refine ⟨by rw [hack], by rw [hack], hsearch.1, hsearch.2.1, hsearch.2.2.1,
    hsearch.2.2.2.1, ?_⟩
  exact (repeatSteps_two_cycles (LocationInput.fix f) resp stopRequest f rfl hresp n
    s hrun hflag).1

/-- Fixture: a freshly started session. -/
def startedState : AppState := startTracking initialState

/-- Fixture: one position fix. -/
def sampleFix : PositionFix :=
  { latitude := 515007 / 10000, longitude := -1246 / 10000, accuracy := some 10,
    timestamp := 1700000000000 }

theorem fix_consumed_once_per_cycle_witness :
    (startedState.running = true ∧ startedState.status_updated = false ∧
      respBenign GeoResponse.timeout = true) ∧
    ((mainLoopStep startedState (LocationInput.fix sampleFix) GeoResponse.timeout
        (fun _ => false)).searched = false ∧
     (mainLoopStep (mainLoopStep startedState (LocationInput.fix sampleFix) GeoResponse.timeout
        (fun _ => false)).state (LocationInput.fix sampleFix) GeoResponse.timeout
        (fun _ => false)).searched = true ∧
     (repeatSteps (LocationInput.fix sampleFix) GeoResponse.timeout (fun _ => false)
        startedState (2 * 2)).2 = 2) := by
  have h := fix_consumed_once_per_cycle startedState sampleFix GeoResponse.timeout
    (fun _ => false) 2 rfl rfl rfl
  exact ⟨⟨rfl, rfl, rfl⟩, h.1, h.2.2.1, h.2.2.2.2.2.2⟩

theorem finishWait_stop_irrelevant (s : AppState) (a b : Nat → Bool) :
    finishWait s a = finishWait s b := by
  simp [finishWait, countdownLoop_eq]

theorem doSearch_stop_irrelevant (s : AppState) (f : PositionFix) (resp : GeoResponse)
    (a b : Nat → Bool) : doSearch s f resp a = doSearch s f resp b := by
  simp [doSearch, get_nearby_wikipedia_pages, finishWait, countdownLoop_eq]

theorem mainLoop_stop_irrelevant (s : AppState) (loc : LocationInput) (resp : GeoResponse)
    (a b : Nat → Bool) : mainLoopStep s loc resp a = mainLoopStep s loc resp b := by
  unfold mainLoopStep
  split
  · rfl
  · cases loc with
    | fix f =>
        dsimp only
        split
        · rfl
        · exact doSearch_stop_irrelevant _ f resp a b
    | fixError code msg => rfl
    | pending => rfl

/-- Fixture: one nearby page as the geosearch API returns it. -/
def samplePage : Json :=
  Json.obj [("pageid", Json.num 1), ("title", Json.str "Big Ben"), ("dist", Json.num 120)]

/-- Fixture: a successful geosearch exchange returning one page. -/
def sampleOkResp : GeoResponse :=
  GeoResponse.body (Json.obj [("query", Json.obj [("geosearch", Json.arr [samplePage])])])

/-- Fixture: a mid-cycle session state, fix acknowledged and search
pending. -/
def midCycleState : AppState :=
  { startedState with status_updated := true }

/-- C2 fails on the code: with the user's stop request raised from the very
first tick of the wait, the search-and-wait rerun still performs all 30
one-second sleeps (the wait is not shortened, so the stop is not observable
before the delay elapses) and still applies the in-flight search result to
the session state. -/
theorem stop_not_observed_during_wait_cex :
    ¬ ((mainLoopStep midCycleState (LocationInput.fix sampleFix) sampleOkResp
          (fun _ => true)).sleeps < REFRESH_INTERVAL_SECONDS ∨
       ¬ (mainLoopStep midCycleState (LocationInput.fix sampleFix) sampleOkResp
          (fun _ => true)).state.last_results = Json.arr [samplePage]) := by
  intro h
  rcases h with h | h
  · have hs : (mainLoopStep midCycleState (LocationInput.fix sampleFix) sampleOkResp
        (fun _ => true)).sleeps = REFRESH_INTERVAL_SECONDS := rfl
    omega
  · exact h rfl

/-- C2 amended: the countdown of the waiting phase consults no stop signal,
so one rerun of the main loop behaves identically under every stop-request
history and the wait always performs its full count of one-second sleeps;
a stop request takes effect only when a later rerun processes the Stop
button. -/
theorem wait_ignores_stop_requests (s : AppState) (loc : LocationInput)
    (resp : GeoResponse) (stopRequest stopRequest2 : Nat → Bool) :
    mainLoopStep s loc resp stopRequest = mainLoopStep s loc resp stopRequest2 ∧
    countdownLoop stopRequest REFRESH_INTERVAL_SECONDS = REFRESH_INTERVAL_SECONDS :=
  ⟨mainLoop_stop_irrelevant s loc resp stopRequest stopRequest2,
    countdownLoop_eq stopRequest REFRESH_INTERVAL_SECONDS⟩

/-- C3: every search cycle from which the geosearch client returns —
whether with results, with an empty list, or degraded to a search error —
leaves the per-generation summary map cleared, so no summary entry that
existed before the new result set is visible afterwards. -/
theorem summaries_cleared_every_search_cycle (s : AppState) (f : PositionFix)
    (resp : GeoResponse) (stopRequest : Nat → Bool)
    (hrun : s.running = true) (hflag : s.status_updated = true)
    (hresp : clientReturns resp = true) :
    (mainLoopStep s (LocationInput.fix f) resp stopRequest).state.summaries = [] ∧
    ∀ page_id : Nat,
      ((mainLoopStep s (LocationInput.fix f) resp stopRequest).state.summaries).lookup page_id
        = none := by
  unfold clientReturns at hresp
  have hsum : (mainLoopStep s (LocationInput.fix f) resp stopRequest).state.summaries = [] := by
    cases hc : clientOutcome resp with
    | error e => rw [hc] at hresp; simp at hresp
    | ok outcome =>
        cases outcome with
        | searchError c =>
            simp [mainLoopStep, hrun, hflag, doSearch, get_nearby_wikipedia_pages, hc, finishWait]
        | results pages =>
            by_cases ht : pyTruthy pages = false
            · simp [mainLoopStep, hrun, hflag, doSearch, get_nearby_wikipedia_pages, hc, ht,
                    finishWait]
            · cases hl : pyLen pages with
              | error e =>
                  simp [mainLoopStep, hrun, hflag, doSearch, get_nearby_wikipedia_pages, hc, ht,
                        hl]
              | ok nlen =>
                  simp [mainLoopStep, hrun, hflag, doSearch, get_nearby_wikipedia_pages, hc, ht,
                        hl, finishWait]
  refine ⟨hsum, fun page_id => ?_⟩
  rw [hsum]
  rfl

/-- Fixture: a mid-cycle state still holding a summary entry from the
previous generation. -/
def staleSummariesState : AppState :=
  { startedState with status_updated := true, summaries := [(1, some "old summary")] }

theorem summaries_cleared_every_search_cycle_witness :
    (staleSummariesState.running = true ∧ staleSummariesState.status_updated = true ∧
      clientReturns GeoResponse.timeout = true ∧
      staleSummariesState.summaries.lookup 1 = some (some "old summary")) ∧
    (mainLoopStep staleSummariesState (LocationInput.fix sampleFix) GeoResponse.timeout
        (fun _ => false)).state.summaries = [] :=
  ⟨⟨rfl, rfl, rfl, rfl⟩,
    (summaries_cleared_every_search_cycle staleSummariesState sampleFix GeoResponse.timeout
      (fun _ => false) rfl rfl rfl).1⟩

/-- C4 fails on the code: with the API key missing, `get_openai_summary`
does not return the absent value — it returns the fixed placeholder string
"OpenAI summarization disabled (API key missing)." (shown here for the
item label "Big Ben"). -/
theorem disabled_summary_not_absent_cex :
    ¬ ((get_openai_summary false (fun _ => OpenAiOutcome.apiTimeout) "Big Ben").1 = none) := by
  intro h
  simp [get_openai_summary] at h

/-- C4 amended: with the enrichment provider disabled (missing credential),
`get_openai_summary` makes no network attempt for any input, but returns
the fixed non-absent placeholder string rather than the absent value. -/
theorem disabled_summary_returns_placeholder_no_network
    (api : String → OpenAiOutcome) (page_title : String) :
    get_openai_summary false api page_title =
      (some "OpenAI summarization disabled (API key missing).", false) := rfl

/-- C5 fails on the code: a response whose body decodes to valid JSON that
is not an object — here the empty JSON list — makes
`get_nearby_wikipedia_pages` raise an uncaught `AttributeError` past its
boundary instead of returning a result list or an error value. -/
theorem geosearch_client_raises_on_nonobject_body_cex :
    (get_nearby_wikipedia_pages 0 0 SEARCH_RADIUS_METERS 5
        (GeoResponse.body (Json.arr []))).2 =
      Except.error "AttributeError: \x27list\x27 object has no attribute \x27get\x27" := rfl

/-- C5 amended: for a timeout, a transport or HTTP-status failure, an
undecodable body, or a decoded body that is a JSON object whose `error`
field (when present) and `query` field (when reached) are objects, the
client returns exactly one of the two outcomes — a result list or a
`None`-with-message search error — without raising; a decoded body outside
that shape escapes as an uncaught exception. -/
theorem geosearch_client_total_on_wellshaped (latitude longitude : ℚ)
    (radius_meters limit : Nat) (resp : GeoResponse)
    (h : responseWellShaped resp = true) :
    ∃ out, (get_nearby_wikipedia_pages latitude longitude radius_meters limit resp).2 =
      Except.ok out := by
  cases resp with
  | timeout => exact ⟨_, rfl⟩
  | requestError e => exact ⟨_, rfl⟩
  | decodeFailure => exact ⟨_, rfl⟩
  | body data =>
      cases data with
      | null => simp [responseWellShaped] at h
      | bool b => simp [responseWellShaped] at h
      | num n => simp [responseWellShaped] at h
      | str t => simp [responseWellShaped] at h
      | arr xs => simp [responseWellShaped] at h
      | obj fields =>
          simp only [responseWellShaped] at h
          simp only [get_nearby_wikipedia_pages, clientOutcome, parseGeosearchBody, pyContains,
            lookup_any_eq]
          cases hl : fields.lookup "error" with
          | some v =>
              rw [hl] at h
              cases v with
              | obj efields =>
                  simp [hl, pyIndex, pyDictGet]
                  cases efields.lookup "info" with
                  | some info => exact ⟨_, rfl⟩
                  | none => exact ⟨_, rfl⟩
              | null => simp at h
              | bool b => simp at h
              | num n => simp at h
              | str t => simp at h
              | arr ys => simp at h
          | none =>
              rw [hl] at h
              cases hq : fields.lookup "query" with
              | some q =>
                  rw [hq] at h
                  cases q with
                  | obj qfields =>
                      simp [hl, hq, pyDictGet]
                      cases qfields.lookup "geosearch" with
                      | some gs => exact ⟨_, rfl⟩
                      | none => exact ⟨_, rfl⟩
                  | null => simp at h
                  | bool b => simp at h
                  | num n => simp at h
                  | str t => simp at h
                  | arr ys => simp at h
              | none =>
                  simp [hl, hq, pyDictGet]

theorem geosearch_client_total_on_wellshaped_witness :
    (responseWellShaped GeoResponse.timeout = true ∧
      responseWellShaped (GeoResponse.body (Json.obj [("error",
        Json.obj [("info", Json.str "Invalid coordinate provided")])])) = true) ∧
    (∃ out, (get_nearby_wikipedia_pages 0 0 SEARCH_RADIUS_METERS 5
        GeoResponse.timeout).2 = Except.ok out) ∧
    (∃ out, (get_nearby_wikipedia_pages 0 0 SEARCH_RADIUS_METERS 5
        (GeoResponse.body (Json.obj [("error",
          Json.obj [("info", Json.str "Invalid coordinate provided")])]))).2 =
      Except.ok out) :=
  ⟨⟨rfl, rfl⟩,
    geosearch_client_total_on_wellshaped 0 0 SEARCH_RADIUS_METERS 5 GeoResponse.timeout rfl,
    geosearch_client_total_on_wellshaped 0 0 SEARCH_RADIUS_METERS 5
      (GeoResponse.body (Json.obj [("error",
        Json.obj [("info", Json.str "Invalid coordinate provided")])])) rfl⟩

/-- C6: when the geosearch call of a cycle fails (for example times out),
the search-and-wait rerun stores the empty list as the result set, sets the
status text reporting the search error and the continuing wait, performs
the full fixed wait, and schedules the next cycle — the failure is
non-fatal and tracking keeps running. -/
theorem search_error_degrades_to_empty_and_waits (s : AppState) (f : PositionFix)
    (resp : GeoResponse) (stopRequest : Nat → Bool)
    (hrun : s.running = true) (hflag : s.status_updated = true)
    (hfail : clientFailed resp = true) :
    (mainLoopStep s (LocationInput.fix f) resp stopRequest).state.last_results = Json.arr [] ∧
    (mainLoopStep s (LocationInput.fix f) resp stopRequest).state.status_message =
      searchErrMsg ∧
    (mainLoopStep s (LocationInput.fix f) resp stopRequest).sleeps =
      REFRESH_INTERVAL_SECONDS ∧
    (mainLoopStep s (LocationInput.fix f) resp stopRequest).rerun = true ∧
    (mainLoopStep s (LocationInput.fix f) resp stopRequest).state.status_updated = false ∧
    (mainLoopStep s (LocationInput.fix f) resp stopRequest).state.running = true ∧
    (mainLoopStep s (LocationInput.fix f) resp stopRequest).crashed = none := by
  unfold clientFailed at hfail
  cases hc : clientOutcome resp with
  | error e => rw [hc] at hfail; simp at hfail
  | ok outcome =>
      rw [hc] at hfail
      cases outcome with
      | results pages => simp at hfail
      | searchError c =>
          simp [mainLoopStep, hrun, hflag, doSearch, get_nearby_wikipedia_pages, hc, finishWait,
                countdownLoop_eq]

theorem search_error_degrades_to_empty_and_waits_witness :
    (midCycleState.running = true ∧ midCycleState.status_updated = true ∧
      clientFailed GeoResponse.timeout = true) ∧
    ((mainLoopStep midCycleState (LocationInput.fix sampleFix) GeoResponse.timeout
        (fun _ => false)).state.last_results = Json.arr [] ∧
     (mainLoopStep midCycleState (LocationInput.fix sampleFix) GeoResponse.timeout
        (fun _ => false)).state.status_message = searchErrMsg ∧
     (mainLoopStep midCycleState (LocationInput.fix sampleFix) GeoResponse.timeout
        (fun _ => false)).sleeps = REFRESH_INTERVAL_SECONDS) := by
  have h := search_error_degrades_to_empty_and_waits midCycleState sampleFix
    GeoResponse.timeout (fun _ => false) rfl rfl rfl
  exact ⟨⟨rfl, rfl, rfl⟩, h.1, h.2.1, h.2.2.1⟩

theorem geoErrorMsg_contains_message (code : Int) (message : String) :
    ∃ pre post, geoErrorMsg code message = pre ++ message ++ post :=
  ⟨"🚫 Geolocation Error: ", " (Code: " ++ toString code ++ "). Tracking stopped.", by
    simp [geoErrorMsg, String.append_assoc]⟩

theorem geoErrorMsg_contains_code (code : Int) (message : String) :
    ∃ pre post, geoErrorMsg code message =
      pre ++ ("(Code: " ++ toString code ++ ")") ++ post :=
  ⟨"🚫 Geolocation Error: " ++ message ++ " ", ". Tracking stopped.", by
    have h1 : " (Code: " = " " ++ "(Code: " := rfl
    simp only [geoErrorMsg]
    simp [String.append_assoc]
    rw [h1, String.append_assoc]⟩

/-- C7: a fix-error delivery while tracking stops the session — `running`
becomes false (so the Start control is re-enabled), the stored error text
is composed of the adapter's message and code (it contains both as
substrings), and the status text becomes the stopped-due-to-location-error
message. -/
theorem fix_error_stops_tracking (s : AppState) (code : Int) (message : String)
    (resp : GeoResponse) (stopRequest : Nat → Bool) (hrun : s.running = true) :
    (mainLoopStep s (LocationInput.fixError code message) resp stopRequest).state.running
      = false ∧
    start_button_disabled
      (mainLoopStep s (LocationInput.fixError code message) resp stopRequest).state = false ∧
    (mainLoopStep s (LocationInput.fixError code message) resp stopRequest).state.error_message
      = some (geoErrorMsg code message) ∧
    (∃ pre post, geoErrorMsg code message = pre ++ message ++ post) ∧
    (∃ pre post, geoErrorMsg code message =
      pre ++ ("(Code: " ++ toString code ++ ")") ++ post) ∧
    (mainLoopStep s (LocationInput.fixError code message) resp stopRequest).state.status_message
      = "Tracking stopped due to location error." ∧
    (mainLoopStep s (LocationInput.fixError code message) resp stopRequest).rerun = true := by
  refine ⟨?_, ?_, ?_, geoErrorMsg_contains_message code message,
    geoErrorMsg_contains_code code message, ?_, ?_⟩ <;>
    simp [mainLoopStep, hrun, start_button_disabled]

theorem fix_error_stops_tracking_witness :
    (startedState.running = true) ∧
    ((mainLoopStep startedState (LocationInput.fixError 1 "User denied Geolocation")
        GeoResponse.timeout (fun _ => false)).state.running = false ∧
     (mainLoopStep startedState (LocationInput.fixError 1 "User denied Geolocation")
        GeoResponse.timeout (fun _ => false)).state.error_message =
       some (geoErrorMsg 1 "User denied Geolocation") ∧
     (∃ pre post, geoErrorMsg 1 "User denied Geolocation" =
        pre ++ "User denied Geolocation" ++ post) ∧
     (∃ pre post, geoErrorMsg 1 "User denied Geolocation" =
        pre ++ ("(Code: " ++ toString (1 : Int) ++ ")") ++ post)) := by
  have h := fix_error_stops_tracking startedState 1 "User denied Geolocation"
    GeoResponse.timeout (fun _ => false) rfl
  exact ⟨rfl, h.1, h.2.2.1, h.2.2.2.1, h.2.2.2.2.1⟩

/-- C8 fails on the code: a radius of 20000 m, above the provider's
documented 10000 m maximum, is sent to the provider unmodified — the
`gsradius` parameter is not reduced to the maximum. -/
theorem radius_not_clamped_cex :
    ¬ ((get_nearby_wikipedia_pages 0 0 20000 5 GeoResponse.timeout).1.gsradius =
        min 20000 WIKIPEDIA_MAX_GSRADIUS) := by
  intro h
  simp [get_nearby_wikipedia_pages, WIKIPEDIA_MAX_GSRADIUS] at h

/-- C8 amended: the radius argument is forwarded to the provider unchanged
for every input — no clamping to the provider's documented maximum (or to
anything else) happens anywhere in the client. -/
theorem radius_forwarded_unclamped (latitude longitude : ℚ) (radius_meters limit : Nat)
    (resp : GeoResponse) :
    (get_nearby_wikipedia_pages latitude longitude radius_meters limit resp).1.gsradius =
      radius_meters := rfl

/-- C9: the Stop Tracking handler, from any session state, disables
tracking, sets the stopped-by-user status, clears the error text, leaves
`last_location`, `last_results`, `summaries` and `status_updated`
untouched, and afterwards the main loop is inert — every subsequent rerun
leaves the state unchanged with no search, no sleep and no rerun
request. -/
theorem stop_preserves_display_state (s : AppState) (loc : LocationInput)
    (resp : GeoResponse) (stopRequest : Nat → Bool) :
    (stopTracking s).running = false ∧
    (stopTracking s).status_message = "Tracking stopped by user." ∧
    (stopTracking s).error_message = none ∧
    (stopTracking s).last_location = s.last_location ∧
    (stopTracking s).last_results = s.last_results ∧
    (stopTracking s).summaries = s.summaries ∧
    (stopTracking s).status_updated = s.status_updated ∧
    mainLoopStep (stopTracking s) loc resp stopRequest =
      { state := stopTracking s, searched := false, sleeps := 0, rerun := false,
        crashed := none } := by
  refine ⟨rfl, rfl, rfl, rfl, rfl, rfl, rfl, ?_⟩
  simp [mainLoopStep, stopTracking]

/-- C10: summary fetching is memoized by page title with a one-hour
time-to-live that survives the per-generation summary map: after a first
display call fetches and stores the summary for a title, a second display
call within the hour — with the summary map freshly cleared by an
intervening cycle, and even under a different page id — returns the first
call's result from the cache without a new network request. -/
theorem summary_memoized_by_title_across_generations
    (cache : SummaryCache) (t0 t1 : Nat) (api : String → OpenAiOutcome)
    (title : String) (pid1 pid2 : Nat) (s1 : Summaries)
    (hmiss : cache.find? (fun e => e.title == title && decide (t0 - e.storedAt < 3600)) = none)
    (hnew : s1.lookup pid1 = none)
    (hfresh : t1 - t0 < 3600) :
    (displaySummary true cache t0 api s1 pid1 title).attempted = true ∧
    (displaySummary true (displaySummary true cache t0 api s1 pid1 title).cache t1 api []
        pid2 title).attempted = false ∧
    ((displaySummary true (displaySummary true cache t0 api s1 pid1 title).cache t1 api []
        pid2 title).summaries).lookup pid2 = some (get_openai_summary true api title).1 := by
  have hcall1 : displaySummary true cache t0 api s1 pid1 title =
      { summaries := (pid1, (get_openai_summary true api title).1) :: s1,
        cache := CacheEntry.mk title (get_openai_summary true api title).1 t0 :: cache,
        attempted := (get_openai_summary true api title).2 } := by
    simp [displaySummary, cache_data_call, hmiss, hnew]
  have hfind2 : (CacheEntry.mk title (get_openai_summary true api title).1 t0 :: cache).find?
        (fun e => e.title == title && decide (t1 - e.storedAt < 3600)) =
      some (CacheEntry.mk title (get_openai_summary true api title).1 t0) := by
    simp [List.find?, hfresh]
  refine ⟨?_, ?_, ?_⟩
  · rw [hcall1]
    exact get_openai_summary_enabled_attempts api title
  · rw [hcall1]
    simp [displaySummary, cache_data_call, hfind2]
  · rw [hcall1]
    simp [displaySummary, cache_data_call, hfind2]

/-- Fixture: a deterministic enrichment provider. -/
def sampleApi : String → OpenAiOutcome :=
  fun _ => OpenAiOutcome.success "A famous clock tower in London."

theorem summary_memoized_by_title_across_generations_witness :
    (([] : SummaryCache).find?
        (fun e => e.title == "Big Ben" && decide (0 - e.storedAt < 3600)) = none ∧
      ([] : Summaries).lookup 1 = none ∧ 100 - 0 < 3600) ∧
    ((displaySummary true [] 0 sampleApi [] 1 "Big Ben").attempted = true ∧
     (displaySummary true (displaySummary true [] 0 sampleApi [] 1 "Big Ben").cache 100
        sampleApi [] 7 "Big Ben").attempted = false ∧
     ((displaySummary true (displaySummary true [] 0 sampleApi [] 1 "Big Ben").cache 100
        sampleApi [] 7 "Big Ben").summaries).lookup 7 =
       some (get_openai_summary true sampleApi "Big Ben").1) := by
  have h := summary_memoized_by_title_across_generations [] 0 100 sampleApi "Big Ben" 1 7 []
    rfl rfl (by decide)
  exact ⟨⟨rfl, rfl, by decide⟩, h⟩
